import Mathlib

/-!
Shallow embedding of the Brainot calendar client's local/remote event sync
engine, translated from `src/services/googleCalendarService.ts` (the service
instance imported by `Dashboard.tsx` and `EditorPanel.tsx`), from the batch
`syncEvents` reconciliation in `src/services/googleCalendar.ts`, and from the
UI handlers in `Dashboard.tsx` and `EditorPanel.tsx`.

Modelling conventions:
* JavaScript `Date` values are integers of seconds since the Unix epoch (UTC).
* The browser's time zone is a fixed offset `o` in minutes, with the sign
  convention of `Date.prototype.getTimezoneOffset` (local wall clock =
  UTC - 60*o seconds).
* A `YYYY-MM-DD` date string is represented by its day number since
  1970-01-01; `civilFromDays`/`dayToISO` render the day number as a civil
  date for concrete scenarios.
* Each remote HTTP round is an oracle (`Remote`): whether an access token is
  available (`authOk`: `getAccessToken` succeeds), the outcome of a POST
  insert (`createResult`: the new event id, or `none` for an HTTP error),
  and the outcomes of PATCH / DELETE requests (`updateOk`, `deleteOk`).
  Functions return, next to their result, the list of remote mutating calls
  they issued (`RemoteOp`); the read-only window GET of batch sync is
  modelled by passing the fetched list as an argument.
-/

/-- Priority of a local calendar item (`'low' | 'medium' | 'high'` in `types.ts`). -/
inductive Priority
  | low
  | medium
  | high
deriving DecidableEq, Repr

/-- The `resource` payload carried by a `MyEvent`. Fields that are absent
(`undefined`) in a given object are `none` / `false`. -/
structure EventResource where
  isNote : Bool
  content : String
  priority : Option Priority
  googleEventId : Option String
  syncedToGoogle : Bool
deriving DecidableEq, Repr

/-- A local calendar item (`MyEvent` in `types.ts`). The TS field `end` is a
Lean keyword and is embedded as `endTime`. -/
structure MyEvent where
  id : String
  title : String
  start : Int
  endTime : Int
  allDay : Bool
  resource : EventResource
deriving DecidableEq, Repr

/-- One boundary of a Google Calendar event body: either a timed boundary
`{dateTime, timeZone}` or a date-only boundary `{date}` (day number). -/
inductive GBoundary
  | dateTime (t : Int) (timeZone : String)
  | date (day : Int)
deriving DecidableEq, Repr

/-- `true` on a `{date}` (all-day) boundary, i.e. when no `dateTime` field is
present. -/
def GBoundary.isDateOnly : GBoundary → Bool
  | .dateTime _ _ => false
  | .date _ => true

/-- The request body sent to the Google Calendar API
(`convertToGoogleEvent`'s result). The TS field `end` is embedded as `endB`. -/
structure GoogleEvent where
  summary : String
  description : String
  colorId : String
  start : GBoundary
  endB : GBoundary
deriving DecidableEq, Repr

/-- Outcome oracle for the remote HTTP calls made during one operation. -/
structure Remote where
  authOk : Bool
  createResult : Option String
  updateOk : Bool
  deleteOk : Bool
deriving DecidableEq, Repr

/-- A mutating remote calendar call, tagged with the local item it was issued
for (`create`/`update`) or the remote identifier it addressed (`delete`). -/
inductive RemoteOp
  | create (e : MyEvent)
  | update (gid : String) (e : MyEvent)
  | delete (gid : String)
deriving DecidableEq, Repr

/-- `true` exactly on a remote create (POST insert) call. -/
def RemoteOp.isCreate : RemoteOp → Bool
  | .create _ => true
  | _ => false

/-- `true` when the remote call was issued for a local item of kind Note. -/
def RemoteOp.onNote : RemoteOp → Bool
  | .create e => e.resource.isNote
  | .update _ e => e.resource.isNote
  | .delete _ => false

/-- Day number (since 1970-01-01) of the local calendar date of instant `t`
under time-zone offset `o` minutes; this is what
`new Date(t - offset*60000).toISOString().split('T')[0]` denotes. -/
def localDay (t o : Int) : Int :=
  Int.ediv (t - 60 * o) 86400

/-- The fixed priority-to-color mapping of `convertToGoogleEvent`
(`{low:'2', medium:'9', high:'11'}`). -/
def colorMap : Priority → String
  | .low => "2"
  | .medium => "9"
  | .high => "11"

/-- `GoogleCalendarService.convertToGoogleEvent` (googleCalendarService.ts,
the service used by the app).  All-day items emit date-only boundaries: the
start is the local date of `event.start`, and the end is obtained by first
adding one day to `event.end` (`setDate(getDate()+1)`) and then taking its
local date.  Timed items emit `dateTime` boundaries carrying the instant and
the IANA zone name `tz`. -/
def convertToGoogleEvent (o : Int) (tz : String) (event : MyEvent) : GoogleEvent :=
  { summary := event.title
    description := event.resource.content
    colorId := colorMap (event.resource.priority.getD .medium)
    start :=
      if event.allDay then .date (Int.ediv (event.start - 60 * o) 86400)
      else .dateTime event.start tz
    endB :=
      if event.allDay then .date (Int.ediv (event.endTime + 86400 - 60 * o) 86400)
      else .dateTime event.endTime tz }

/-- `GoogleCalendarService.createEvent`: POST the converted body.  The HTTP
request fires only when an access token is available; the result is the new
remote id, or `none` when the request threw (caught by the caller). -/
def createEvent (event : MyEvent) (r : Remote) : Option String × List RemoteOp :=
  if r.authOk then (r.createResult, [.create event]) else (none, [])

/-- `GoogleCalendarService.updateEvent`: throws when the item has no
`googleEventId`, otherwise PATCHes the converted body at that id.  Returns
whether the update succeeded. -/
def updateEvent (event : MyEvent) (r : Remote) : Bool × List RemoteOp :=
  match event.resource.googleEventId with
  | none => (false, [])
  | some gid => if r.authOk then (r.updateOk, [.update gid event]) else (false, [])

/-- `GoogleCalendarService.deleteEvent`: DELETE at the given remote id. -/
def deleteEvent (googleEventId : String) (r : Remote) : Bool × List RemoteOp :=
  if r.authOk then (r.deleteOk, [.delete googleEventId]) else (false, [])

/-- `GoogleCalendarService.syncEvent`: dispatch on `googleEventId` — create
when absent (returning the new id on success), update when present
(returning the same id on success); every thrown error is caught and turned
into `null` (`none`). -/
def syncEvent (event : MyEvent) (r : Remote) : Option String × List RemoteOp :=
  match event.resource.googleEventId with
  | none => createEvent event r
  | some gid =>
      let u := updateEvent event r
      (if u.1 then some gid else none, u.2)

/-- The caller-side linking step: `EditorPanel.handleSubmit` stores the id
returned by a successful create into the item's `googleEventId`, which is
what the item carries on every later sync. -/
def setGoogleEventId (e : MyEvent) (gid : String) : MyEvent :=
  { e with resource := { e.resource with googleEventId := some gid } }

/-- Civil date (year, month, day) of a day number counted from 1970-01-01,
by the standard days-from-civil inverse algorithm; used to read day numbers
back as `YYYY-MM-DD` strings in concrete scenarios. -/
def civilFromDays (z : Int) : Int × Int × Int :=
  let zs := z + 719468
  let era := Int.ediv zs 146097
  let doe := zs - era * 146097
  let yoe := Int.ediv (doe - Int.ediv doe 1460 + Int.ediv doe 36524 - Int.ediv doe 146096) 365
  let y := yoe + era * 400
  let doy := doe - (365 * yoe + Int.ediv yoe 4 - Int.ediv yoe 100)
  let mp := Int.ediv (5 * doy + 2) 153
  let d := doy - Int.ediv (153 * mp + 2) 5 + 1
  let m := mp + (if mp < 10 then 3 else (-9))
  (if m ≤ 2 then y + 1 else y, m, d)

/-- Two-digit zero padding for date components. -/
def pad2 (n : Int) : String :=
  if n < 10 then "0" ++ toString n else toString n

/-- Renders a day number as its `YYYY-MM-DD` date string. -/
def dayToISO (z : Int) : String :=
  let c := civilFromDays z
  toString c.1 ++ "-" ++ pad2 c.2.1 ++ "-" ++ pad2 c.2.2

/-- One iteration of the local loop of `GoogleCalendarService.syncEvents`
(googleCalendar.ts): Notes are pushed through untouched; a linked event gets
a PUT at its stored id (on success the pushed copy re-carries the same id,
on a caught failure the item is pushed unchanged); an unlinked event gets a
POST whose returned id is stored, or is pushed unchanged on a caught
failure.  `cO`/`uO` are the create/update outcome oracles. -/
def syncOne (cO : MyEvent → Option String) (uO : MyEvent → Bool)
    (e : MyEvent) : MyEvent × List RemoteOp :=
  if e.resource.isNote then (e, [])
  else
    match e.resource.googleEventId with
    | some g =>
        if uO e then
          ({ e with resource := { e.resource with googleEventId := some g } },
           [.update g e])
        else (e, [.update g e])
    | none =>
        match cO e with
        | some gid => (setGoogleEventId e gid, [.create e])
        | none => (e, [.create e])

/-- The sequential local loop of `syncEvents`, returning the accumulated
`syncedEvents` list and the remote calls issued, in order. -/
def processLocals (cO : MyEvent → Option String) (uO : MyEvent → Bool) :
    List MyEvent → List MyEvent × List RemoteOp
  | [] => ([], [])
  | e :: rest =>
      let p := syncOne cO uO e
      let q := processLocals cO uO rest
      (p.1 :: q.1, p.2 ++ q.2)

/-- The merge loop of `syncEvents`: each fetched remote event is appended
only when no entry accumulated so far has the same `googleEventId`
(JavaScript `===` on the two optional ids). -/
def mergeGoogle (synced : List MyEvent) : List MyEvent → List MyEvent
  | [] => synced
  | g :: rest =>
      if synced.any (fun l => l.resource.googleEventId == g.resource.googleEventId)
      then mergeGoogle synced rest
      else mergeGoogle (synced ++ [g]) rest

/-- `GoogleCalendarService.syncEvents` (googleCalendar.ts): throws when not
signed in; otherwise fetches the remote window (`gEvents`, read-only, not
traced), runs the local loop, and merges the fetched events into the result. -/
def syncEvents (signedIn : Bool) (cO : MyEvent → Option String)
    (uO : MyEvent → Bool) (localEvents gEvents : List MyEvent) :
    Option (List MyEvent) × List RemoteOp :=
  if signedIn then
    let p := processLocals cO uO localEvents
    (some (mergeGoogle p.1 gEvents), p.2)
  else (none, [])

/-- The dedup key of the reconciliation result: the remote identifier when
present, the local id otherwise. -/
def keyOf (e : MyEvent) : String ⊕ String :=
  match e.resource.googleEventId with
  | some g => Sum.inl g
  | none => Sum.inr e.id

/-- `Dashboard.handleSyncCalendar`: filters Notes out, then runs
`googleCalendarService.syncEvent` on each remaining event in order (`ro`
gives each call's remote outcome); returns the remote calls issued. -/
def handleSyncCalendar (events : List MyEvent) (ro : MyEvent → Remote) :
    List RemoteOp :=
  (events.filter (fun e => !e.resource.isNote)).flatMap (fun e => (syncEvent e (ro e)).2)

/-- `Dashboard.handleEventDelete`: looks the item up by id, deletes the local
document, and — only for a non-Note carrying a `googleEventId` — attempts one
remote delete whose failure is caught and only logged.  Returns the remaining
local store and the remote calls issued. -/
def handleEventDelete (events : List MyEvent) (eventId : String)
    (isNote : Bool) (r : Remote) : List MyEvent × List RemoteOp :=
  let eventToDelete := events.find? (fun e => e.id == eventId)
  let remaining := events.filter (fun e => !(e.id == eventId))
  let ops :=
    if !isNote then
      match eventToDelete with
      | some e =>
          match e.resource.googleEventId with
          | some g => (deleteEvent g r).2
          | none => []
      | none => []
    else []
  (remaining, ops)

/-- A fetched Google Calendar event as returned by the list endpoint. -/
structure RemoteGoogleEvent where
  id : String
  summary : Option String
  description : Option String
  start : GBoundary
  endB : GBoundary
deriving DecidableEq, Repr

/-- `GoogleCalendarService.convertFromGoogleEvent` (googleCalendar.ts):
a boundary with a `dateTime` is parsed as that instant; a date-only boundary
is parsed as the local wall-clock time `T00:00:00` (start) or `T23:59:59`
(end) of that date; `allDay` is set exactly when the start has no `dateTime`;
the result carries `googleEventId = id` and `syncedToGoogle = true`. -/
def convertFromGoogleEvent (o : Int) (g : RemoteGoogleEvent) : MyEvent :=
  { id := g.id
    title := g.summary.getD "Untitled Event"
    start :=
      match g.start with
      | .dateTime t _ => t
      | .date d => d * 86400 + 60 * o
    endTime :=
      match g.endB with
      | .dateTime t _ => t
      | .date d => d * 86400 + 86399 + 60 * o
    allDay := g.start.isDateOnly
    resource := { isNote := false, content := g.description.getD "",
                  priority := none, googleEventId := some g.id,
                  syncedToGoogle := true } }

/-- `EditorPanel.validateEventTimes`: all-day items are accepted outright;
a timed item is rejected when its end is not after its start. -/
def validateEventTimes (allDay : Bool) (startDay startTime endDay endTime : Int) :
    Bool :=
  if allDay then true
  else
    let s := startDay * 86400 + startTime
    let e := endDay * 86400 + endTime
    if e ≤ s then false else true

/-- JavaScript `String.prototype.trim`: strips whitespace from both ends
(modelled over the character list so concrete runs evaluate). -/
def jsTrim (s : String) : String :=
  String.mk (((s.data.dropWhile Char.isWhitespace).reverse.dropWhile
    Char.isWhitespace).reverse)

/-- The document written by `EditorPanel.handleSubmit` (fields spread
conditionally, absent ones `none`). -/
structure EventData where
  title : String
  start : Int
  endTime : Int
  content : Option String
  isNote : Bool
  allDay : Option Bool
  priority : Option Priority
  googleEventId : Option String
deriving DecidableEq, Repr

/-- An observable effect of `EditorPanel.handleSubmit`: a local document
write (`addDoc`/`updateDoc`), the follow-up write storing a freshly created
remote id, or a remote calendar call. -/
inductive SubmitAction
  | addDoc (coll : String) (d : EventData)
  | updateDoc (coll : String) (id : String) (d : EventData)
  | storeGoogleEventId (id : String) (gid : String)
  | remote (op : RemoteOp)
deriving DecidableEq, Repr

/-- `true` on the local-store writes among the submit actions. -/
def SubmitAction.isLocalWrite : SubmitAction → Bool
  | .addDoc _ _ => true
  | .updateDoc _ _ _ => true
  | .storeGoogleEventId _ _ => true
  | .remote _ => false

/-- The form state of `EditorPanel` at submit time: the date inputs are day
numbers, the time inputs seconds within the day, and `existing` is the event
being edited (if any). -/
structure SubmitForm where
  title : String
  content : String
  isNote : Bool
  allDay : Bool
  startDay : Int
  startTime : Int
  endDay : Int
  endTime : Int
  priority : Priority
  existing : Option MyEvent
deriving DecidableEq, Repr

/-- `EditorPanel.handleSubmit`: rejects an empty title, then (for events)
rejects invalid times via `validateEventTimes` — both before any write or
network call.  Otherwise it builds the combined timestamps (`now` for notes;
for all-day events `T00:00:00`/`T23:59:59` local), writes the document
(update when editing, add when creating with fresh id `newId`), and for
events mirrors the change remotely: an edit of a linked event PATCHes it, a
new event is sent through `syncEvent` and a returned id is stored back.
Remote failures are caught and do not undo the local write. -/
def handleSubmit (form : SubmitForm) (now o : Int) (newId : String)
    (r : Remote) : List SubmitAction :=
  if jsTrim form.title = "" then []
  else if !form.isNote &&
      !(validateEventTimes form.allDay form.startDay form.startTime
          form.endDay form.endTime) then []
  else
    let startDateTime : Int :=
      if form.isNote then now
      else if form.allDay then form.startDay * 86400 + 60 * o
      else form.startDay * 86400 + form.startTime + 60 * o
    let endDateTime : Int :=
      if form.isNote then now
      else if form.allDay then form.endDay * 86400 + 86399 + 60 * o
      else form.endDay * 86400 + form.endTime + 60 * o
    let content := jsTrim form.content
    let d : EventData :=
      { title := jsTrim form.title
        start := startDateTime
        endTime := endDateTime
        content := if content = "" then none else some content
        isNote := form.isNote
        allDay := if form.isNote then none else some form.allDay
        priority := if form.isNote then none else some form.priority
        googleEventId :=
          if form.isNote then none
          else form.existing.bind (fun ev => ev.resource.googleEventId) }
    let coll := if form.isNote then "notes" else "events"
    match form.existing with
    | some ev =>
        SubmitAction.updateDoc coll ev.id d ::
        (if form.isNote then []
         else
           match ev.resource.googleEventId with
           | some _ =>
               let updatedEvent : MyEvent :=
                 { id := ev.id, title := jsTrim form.title, start := startDateTime,
                   endTime := endDateTime, allDay := form.allDay,
                   resource := { isNote := false, content := content,
                                 priority := some form.priority,
                                 googleEventId := ev.resource.googleEventId,
                                 syncedToGoogle := false } }
               (updateEvent updatedEvent r).2.map SubmitAction.remote
           | none => [])
    | none =>
        SubmitAction.addDoc coll d ::
        (if form.isNote then []
         else
           let newEvent : MyEvent :=
             { id := newId, title := jsTrim form.title, start := startDateTime,
               endTime := endDateTime, allDay := form.allDay,
               resource := { isNote := false, content := content,
                             priority := some form.priority,
                             googleEventId := none, syncedToGoogle := false } }
           let res := syncEvent newEvent r
           res.2.map SubmitAction.remote ++
             (match res.1 with
              | some gid => [SubmitAction.storeGoogleEventId newId gid]
              | none => []))

/-- Recovery of a priority from its remote color tag; its existence shows the
three tags are pairwise distinct. -/
def recoverPriority (colorId : String) : Option Priority :=
  if colorId = "2" then some .low
  else if colorId = "9" then some .medium
  else if colorId = "11" then some .high
  else none

/-- C1: `syncEvent` dispatches on the presence of `googleEventId`: an
unlinked item gets exactly one create (whose id is returned on success); an
item carrying an id gets only an update addressed by that id, never a
create; hence a sync after a successful first sync performs exactly one
create followed by one update. -/
theorem syncEvent_create_once (e : MyEvent) (r₁ r₂ : Remote) (gid : String)
    (h : e.resource.googleEventId = none) (h1 : r₁.authOk = true)
    (h2 : r₁.createResult = some gid) (h3 : r₂.authOk = true) :
    (syncEvent e r₁).1 = some gid ∧
    (syncEvent e r₁).2 = [RemoteOp.create e] ∧
    (syncEvent (setGoogleEventId e gid) r₂).2
      = [RemoteOp.update gid (setGoogleEventId e gid)] ∧
    (∀ (f : MyEvent) (g : String) (r : Remote),
      f.resource.googleEventId = some g →
      ∀ op ∈ (syncEvent f r).2, op.isCreate = false) := by
  refine ⟨?_, ?_, ?_, ?_⟩
  · simp [syncEvent, createEvent, h, h1, h2]
  · simp [syncEvent, createEvent, h, h1]
  · simp [syncEvent, updateEvent, setGoogleEventId, h3]
  · intro f g r hf op hop
    simp only [syncEvent, updateEvent, hf] at hop
    cases hr : r.authOk
    · simp [hr] at hop
    · simp [hr] at hop
      simp [hop, RemoteOp.isCreate]

/-- C2: for every all-day item, `convertToGoogleEvent` emits date-only
boundaries whose start is the local date of `event.start` and whose end is
the local (inclusive) date of `event.end` plus one day — the provider's
exclusive-end convention — for every time-zone offset `o`. -/
theorem convertToGoogleEvent_allDay_exclusive_end (e : MyEvent) (o : Int)
    (tz : String) (h : e.allDay = true) :
    (convertToGoogleEvent o tz e).start = .date (localDay e.start o) ∧
    (convertToGoogleEvent o tz e).endB = .date (localDay e.endTime o + 1) := by
  constructor
  · simp [convertToGoogleEvent, localDay, h]
  · simp only [convertToGoogleEvent, localDay, h, if_pos]
    have e1 : e.endTime + 86400 - 60 * o = e.endTime - 60 * o + 1 * 86400 := by ring
    have h2 := Int.add_mul_ediv_right (e.endTime - 60 * o) 1 (c := 86400) (by norm_num)
    simp only [e1]
    exact congrArg GBoundary.date h2

/-- Concrete run of C2: an all-day item spanning 2024-06-01 through
2024-06-03 (stored locally as `2024-06-01T00:00:00`–`2024-06-03T23:59:59`)
yields `start.date = 2024-06-01` and `end.date = 2024-06-04`. -/
theorem convertToGoogleEvent_allDay_witness :
    ({ id := "e2", title := "Vacation", start := 19875 * 86400,
       endTime := 19877 * 86400 + 86399, allDay := true,
       resource := { isNote := false, content := "", priority := none,
                     googleEventId := none, syncedToGoogle := false } } :
      MyEvent).allDay = true ∧
    ((convertToGoogleEvent 0 "UTC"
        { id := "e2", title := "Vacation", start := 19875 * 86400,
          endTime := 19877 * 86400 + 86399, allDay := true,
          resource := { isNote := false, content := "", priority := none,
                        googleEventId := none, syncedToGoogle := false } }).start
      = .date (localDay (19875 * 86400) 0) ∧
     (convertToGoogleEvent 0 "UTC"
        { id := "e2", title := "Vacation", start := 19875 * 86400,
          endTime := 19877 * 86400 + 86399, allDay := true,
          resource := { isNote := false, content := "", priority := none,
                        googleEventId := none, syncedToGoogle := false } }).endB
      = .date (localDay (19877 * 86400 + 86399) 0 + 1)) ∧
    dayToISO (localDay (19875 * 86400) 0) = "2024-06-01" ∧
    dayToISO (localDay (19877 * 86400 + 86399) 0 + 1) = "2024-06-04" := by
  refine ⟨rfl, ?_, by decide, by decide⟩
  exact convertToGoogleEvent_allDay_exclusive_end
    { id := "e2", title := "Vacation", start := 19875 * 86400,
      endTime := 19877 * 86400 + 86399, allDay := true,
      resource := { isNote := false, content := "", priority := none,
                    googleEventId := none, syncedToGoogle := false } }
    0 "UTC" rfl

/-- C3: when a linked item's remote update fails, `syncEvent` returns the
failure value `none` (not the identifier), issues only the one update
addressed by the stored id, and — the item being left unchanged — any later
sync of it again issues no create. -/
theorem syncEvent_update_failure (e : MyEvent) (g : String) (r : Remote)
    (h : e.resource.googleEventId = some g) (h1 : r.authOk = true)
    (h2 : r.updateOk = false) :
    (syncEvent e r).1 = none ∧
    (syncEvent e r).2 = [RemoteOp.update g e] ∧
    (∀ r' : Remote, ∀ op ∈ (syncEvent e r').2, op.isCreate = false) := by
  refine ⟨?_, ?_, ?_⟩
  · simp [syncEvent, updateEvent, h, h1, h2]
  · simp [syncEvent, updateEvent, h, h1]
  · intro r' op hop
    simp only [syncEvent, updateEvent, h] at hop
    cases hr : r'.authOk
    · simp [hr] at hop
    · simp [hr] at hop
      simp [hop, RemoteOp.isCreate]

/-- Concrete run of C3: a linked item whose PATCH fails gets back `none` and
its trace is the single update at its stored id. -/
theorem syncEvent_update_failure_witness :
    ({ id := "e3", title := "Standup", start := 100, endTime := 200,
       allDay := false,
       resource := { isNote := false, content := "", priority := some .high,
                     googleEventId := some "g7", syncedToGoogle := true } } :
      MyEvent).resource.googleEventId = some "g7" ∧
    (syncEvent
        { id := "e3", title := "Standup", start := 100, endTime := 200,
          allDay := false,
          resource := { isNote := false, content := "", priority := some .high,
                        googleEventId := some "g7", syncedToGoogle := true } }
        { authOk := true, createResult := none, updateOk := false,
          deleteOk := true }).1 = none := by
  refine ⟨rfl, ?_⟩
  exact (syncEvent_update_failure
    { id := "e3", title := "Standup", start := 100, endTime := 200,
      allDay := false,
      resource := { isNote := false, content := "", priority := some .high,
                    googleEventId := some "g7", syncedToGoogle := true } }
    "g7"
    { authOk := true, createResult := none, updateOk := false, deleteOk := true }
    rfl rfl rfl).1

/-- C8: the remote body's `colorId` is the fixed three-entry map
low→"2", medium→"9", high→"11" applied to the item's priority (defaulting to
medium when absent), and the three tags are pairwise distinct: priority is
recoverable from the tag. -/
theorem convertToGoogleEvent_colorId (o : Int) (tz : String) :
    (∀ e : MyEvent, (convertToGoogleEvent o tz e).colorId =
      (match e.resource.priority.getD .medium with
       | .low => "2" | .medium => "9" | .high => "11")) ∧
    (∀ p : Priority, recoverPriority (colorMap p) = some p) := by
  constructor
  · intro e
    cases hp : e.resource.priority with
    | none => simp [convertToGoogleEvent, hp, colorMap]
    | some p => cases p <;> simp [convertToGoogleEvent, hp, colorMap]
  · intro p
    cases p <;> rfl

/-- Concrete run of C1: an unlinked event is created (id `"g1"`), then the
relinked event is updated, and no create is ever issued for a linked item. -/
theorem syncEvent_create_once_witness :
    ({ id := "e1", title := "Standup", start := 100, endTime := 200,
       allDay := false,
       resource := { isNote := false, content := "", priority := some .medium,
                     googleEventId := none, syncedToGoogle := false } } :
      MyEvent).resource.googleEventId = none ∧
    (({ authOk := true, createResult := some "g1", updateOk := true,
        deleteOk := true } : Remote).authOk = true) ∧
    ((syncEvent
        { id := "e1", title := "Standup", start := 100, endTime := 200,
          allDay := false,
          resource := { isNote := false, content := "", priority := some .medium,
                        googleEventId := none, syncedToGoogle := false } }
        { authOk := true, createResult := some "g1", updateOk := true,
          deleteOk := true }).1 = some "g1") := by
  refine ⟨rfl, rfl, ?_⟩
  exact (syncEvent_create_once
    { id := "e1", title := "Standup", start := 100, endTime := 200,
      allDay := false,
      resource := { isNote := false, content := "", priority := some .medium,
                    googleEventId := none, syncedToGoogle := false } }
    { authOk := true, createResult := some "g1", updateOk := true,
      deleteOk := true }
    { authOk := true, createResult := some "g1", updateOk := true,
      deleteOk := true }
    "g1" rfl rfl rfl rfl).1

/-- A linked item (`googleEventId` present) is only ever updated: none of the
remote calls `syncEvent` issues for it is a create. -/
theorem syncEvent_linked_no_create (e : MyEvent) (g : String) (r : Remote)
    (h : e.resource.googleEventId = some g) :
    ∀ op ∈ (syncEvent e r).2, op.isCreate = false := by
  intro op hop
  simp only [syncEvent, updateEvent, h] at hop
  cases hr : r.authOk
  · simp [hr] at hop
  · simp [hr] at hop
    simp [hop, RemoteOp.isCreate]

/-- Every remote call issued by one iteration of the batch local loop is for
a non-Note item. -/
theorem syncOne_ops_onNote (cO : MyEvent → Option String) (uO : MyEvent → Bool)
    (e : MyEvent) : ∀ op ∈ (syncOne cO uO e).2, op.onNote = false := by
  intro op hop
  by_cases hn : e.resource.isNote = true
  · simp [syncOne, hn] at hop
  · replace hn : e.resource.isNote = false := by
      cases hv : e.resource.isNote
      · rfl
      · exact absurd hv hn
    simp only [syncOne, hn] at hop
    rcases hg : e.resource.googleEventId with _ | g
    · rcases hc : cO e with _ | gid <;>
        · simp [hg, hc] at hop
          simp [hop, RemoteOp.onNote, hn]
    · by_cases hu : uO e = true <;>
        · simp [hg, hu] at hop
          simp [hop, RemoteOp.onNote, hn]

/-- Every remote call issued by the batch local loop is for a non-Note item. -/
theorem processLocals_ops_onNote (cO : MyEvent → Option String)
    (uO : MyEvent → Bool) (locals : List MyEvent) :
    ∀ op ∈ (processLocals cO uO locals).2, op.onNote = false := by
  induction locals with
  | nil => intro op hop; simp [processLocals] at hop
  | cons e rest ih =>
      intro op hop
      simp only [processLocals, List.mem_append] at hop
      rcases hop with hop | hop
      · exact syncOne_ops_onNote cO uO e op hop
      · exact ih op hop

/-- Any unlinked non-Note in the batch input gets its create attempted. -/
theorem processLocals_create_mem (cO : MyEvent → Option String)
    (uO : MyEvent → Bool) (locals : List MyEvent) (e : MyEvent)
    (hmem : e ∈ locals) (hnote : e.resource.isNote = false)
    (hgid : e.resource.googleEventId = none) :
    RemoteOp.create e ∈ (processLocals cO uO locals).2 := by
  induction locals with
  | nil => cases hmem
  | cons x rest ih =>
      simp only [processLocals, List.mem_append]
      rcases List.mem_cons.mp hmem with rfl | hmem'
      · left
        rcases hc : cO e with _ | gid <;> simp [syncOne, hnote, hgid, hc]
      · right
        exact ih hmem'

/-- An unlinked non-Note whose create fails is kept unchanged by the local
loop. -/
theorem processLocals_keep_failed (cO : MyEvent → Option String)
    (uO : MyEvent → Bool) (locals : List MyEvent) (e : MyEvent)
    (hmem : e ∈ locals) (hnote : e.resource.isNote = false)
    (hgid : e.resource.googleEventId = none) (hfail : cO e = none) :
    e ∈ (processLocals cO uO locals).1 := by
  induction locals with
  | nil => cases hmem
  | cons x rest ih =>
      simp only [processLocals, List.mem_cons]
      rcases List.mem_cons.mp hmem with rfl | hmem'
      · left
        simp [syncOne, hnote, hgid, hfail]
      · right
        exact ih hmem'

/-- The merge loop only appends: every already-accumulated entry survives. -/
theorem mergeGoogle_mem_left (gs : List MyEvent) :
    ∀ synced : List MyEvent, ∀ x ∈ synced, x ∈ mergeGoogle synced gs := by
  induction gs with
  | nil => intro synced x hx; simpa [mergeGoogle] using hx
  | cons g rest ih =>
      intro synced x hx
      simp only [mergeGoogle]
      by_cases hc :
          synced.any (fun l => l.resource.googleEventId == g.resource.googleEventId) = true
      · simpa [hc] using ih synced x hx
      · have : x ∈ synced ++ [g] := List.mem_append_left _ hx
        simpa [hc] using ih (synced ++ [g]) x this

/-- The merge loop preserves distinctness of the dedup keys: a fetched event
is appended only when no accumulated entry shares its `googleEventId`, and
its key is then new. -/
theorem mergeGoogle_nodup_keys (gs : List MyEvent) :
    ∀ synced : List MyEvent, (synced.map keyOf).Nodup →
    ((mergeGoogle synced gs).map keyOf).Nodup := by
  induction gs with
  | nil => intro synced h; simpa [mergeGoogle] using h
  | cons g rest ih =>
      intro synced h
      simp only [mergeGoogle]
      by_cases hc :
          synced.any (fun l => l.resource.googleEventId == g.resource.googleEventId) = true
      · simpa [hc] using ih synced h
      · have hfresh : keyOf g ∉ synced.map keyOf := by
          intro hmem
          rcases List.mem_map.mp hmem with ⟨l, hl, hkl⟩
          have hne := fun hbeq =>
            hc (List.any_eq_true.mpr ⟨l, hl, hbeq⟩)
          rcases hgid : g.resource.googleEventId with _ | G
          · rcases hlg : l.resource.googleEventId with _ | L
            · exact hne (by simp [hlg, hgid])
            · simp [keyOf, hgid, hlg] at hkl
          · rcases hlg : l.resource.googleEventId with _ | L
            · simp [keyOf, hgid, hlg] at hkl
            · have : L = G := by simpa [keyOf, hgid, hlg] using hkl
              exact hne (by simp [hlg, hgid, this])
        have h2 : ((synced ++ [g]).map keyOf).Nodup := by
          simp only [List.map_append, List.map_cons, List.map_nil]
          refine List.Nodup.append h (List.nodup_singleton _) ?_
          intro k hk hk2
          simp only [List.mem_singleton] at hk2
          exact hfresh (hk2 ▸ hk)
        simpa [hc] using ih (synced ++ [g]) h2

/-- C4: deleting a local Event that carries a `googleEventId` issues exactly
one remote delete, and for every outcome of that delete (the failure being
caught and only logged) the item is removed from the local store. -/
theorem handleEventDelete_local_completes (events : List MyEvent)
    (eventId : String) (e : MyEvent) (g : String) (r : Remote)
    (hfind : events.find? (fun x => x.id == eventId) = some e)
    (hgid : e.resource.googleEventId = some g)
    (hauth : r.authOk = true) :
    handleEventDelete events eventId false r
      = (events.filter (fun x => !(x.id == eventId)), [RemoteOp.delete g]) ∧
    (∀ x ∈ (handleEventDelete events eventId false r).1, x.id ≠ eventId) := by
  constructor
  · simp [handleEventDelete, hfind, hgid, deleteEvent, hauth]
  · intro x hx
    simp only [handleEventDelete, List.mem_filter] at hx
    intro hxe
    simp [hxe] at hx

/-- Concrete run of C4: a linked event is removed from the store and the one
remote delete is issued even though the DELETE fails. -/
theorem handleEventDelete_witness :
    (([{ id := "e5", title := "Trip", start := 0, endTime := 10, allDay := false,
         resource := { isNote := false, content := "", priority := none,
                       googleEventId := some "g5", syncedToGoogle := true } }] :
        List MyEvent).find? (fun x => x.id == "e5") = some
      { id := "e5", title := "Trip", start := 0, endTime := 10, allDay := false,
        resource := { isNote := false, content := "", priority := none,
                      googleEventId := some "g5", syncedToGoogle := true } }) ∧
    handleEventDelete
      [{ id := "e5", title := "Trip", start := 0, endTime := 10, allDay := false,
         resource := { isNote := false, content := "", priority := none,
                       googleEventId := some "g5", syncedToGoogle := true } }]
      "e5" false
      { authOk := true, createResult := none, updateOk := true, deleteOk := false }
      = ([], [RemoteOp.delete "g5"]) := by
  refine ⟨by decide, ?_⟩
  have h := (handleEventDelete_local_completes
    [{ id := "e5", title := "Trip", start := 0, endTime := 10, allDay := false,
       resource := { isNote := false, content := "", priority := none,
                     googleEventId := some "g5", syncedToGoogle := true } }]
    "e5"
    { id := "e5", title := "Trip", start := 0, endTime := 10, allDay := false,
      resource := { isNote := false, content := "", priority := none,
                    googleEventId := some "g5", syncedToGoogle := true } }
    "g5"
    { authOk := true, createResult := none, updateOk := true, deleteOk := false }
    (by decide) rfl rfl).1
  simpa using h

/-- Every remote call `syncEvent` issues is tagged with the item it was
called on; for a non-Note item none of them concerns a Note. -/
theorem syncEvent_ops_onNote (e : MyEvent) (r : Remote)
    (hnote : e.resource.isNote = false) :
    ∀ op ∈ (syncEvent e r).2, op.onNote = false := by
  intro op hop
  rcases hg : e.resource.googleEventId with _ | g
  · simp only [syncEvent, createEvent, hg] at hop
    cases hr : r.authOk
    · simp [hr] at hop
    · simp [hr] at hop
      simp [hop, RemoteOp.onNote, hnote]
  · simp only [syncEvent, updateEvent, hg] at hop
    cases hr : r.authOk
    · simp [hr] at hop
    · simp [hr] at hop
      simp [hop, RemoteOp.onNote, hnote]

/-- C6: no remote operation is ever issued for a Note: the Dashboard sync
handler filters Notes out before invoking `syncEvent`, so every call it
issues is for a non-Note; the batch `syncEvents` likewise issues calls only
for non-Notes; and deleting a Note issues no remote call at all. -/
theorem notes_never_synced :
    (∀ (events : List MyEvent) (ro : MyEvent → Remote) (op : RemoteOp),
      op ∈ handleSyncCalendar events ro → op.onNote = false) ∧
    (∀ (signedIn : Bool) (cO : MyEvent → Option String) (uO : MyEvent → Bool)
       (locals gEvents : List MyEvent) (op : RemoteOp),
      op ∈ (syncEvents signedIn cO uO locals gEvents).2 → op.onNote = false) ∧
    (∀ (events : List MyEvent) (eventId : String) (r : Remote),
      (handleEventDelete events eventId true r).2 = []) := by
  refine ⟨?_, ?_, ?_⟩
  · intro events ro op hop
    simp only [handleSyncCalendar, List.mem_flatMap] at hop
    rcases hop with ⟨e, he, hope⟩
    have hnote : e.resource.isNote = false := by
      have := (List.mem_filter.mp he).2
      simpa using this
    exact syncEvent_ops_onNote e (ro e) hnote op hope
  · intro signedIn cO uO locals gEvents op hop
    cases signedIn
    · simp [syncEvents] at hop
    · simp only [syncEvents, if_pos] at hop
      exact processLocals_ops_onNote cO uO locals op hop
  · intro events eventId r
    simp [handleEventDelete]

/-- Concrete run of C6: the Dashboard handler issues the create for the one
Event, that call is not for a Note, and deleting a Note issues nothing. -/
theorem notes_never_synced_witness :
    RemoteOp.create
        { id := "e6", title := "Standup", start := 0, endTime := 60, allDay := false,
          resource := { isNote := false, content := "", priority := none,
                        googleEventId := none, syncedToGoogle := false } }
      ∈ handleSyncCalendar
        [{ id := "e6", title := "Standup", start := 0, endTime := 60, allDay := false,
           resource := { isNote := false, content := "", priority := none,
                         googleEventId := none, syncedToGoogle := false } },
         { id := "n6", title := "Todo", start := 0, endTime := 0, allDay := true,
           resource := { isNote := true, content := "x", priority := none,
                         googleEventId := none, syncedToGoogle := false } }]
        (fun _ => { authOk := true, createResult := some "g6", updateOk := true,
                    deleteOk := true }) ∧
    (RemoteOp.create
        { id := "e6", title := "Standup", start := 0, endTime := 60, allDay := false,
          resource := { isNote := false, content := "", priority := none,
                        googleEventId := none, syncedToGoogle := false } }).onNote
      = false ∧
    (handleEventDelete
        [{ id := "n6", title := "Todo", start := 0, endTime := 0, allDay := true,
           resource := { isNote := true, content := "x", priority := none,
                         googleEventId := none, syncedToGoogle := false } }]
        "n6" true
        { authOk := true, createResult := none, updateOk := true,
          deleteOk := true }).2 = [] := by
  refine ⟨by decide, ?_, ?_⟩
  · exact notes_never_synced.1
      [{ id := "e6", title := "Standup", start := 0, endTime := 60, allDay := false,
         resource := { isNote := false, content := "", priority := none,
                       googleEventId := none, syncedToGoogle := false } },
       { id := "n6", title := "Todo", start := 0, endTime := 0, allDay := true,
         resource := { isNote := true, content := "x", priority := none,
                       googleEventId := none, syncedToGoogle := false } }]
      (fun _ => { authOk := true, createResult := some "g6", updateOk := true,
                  deleteOk := true })
      (RemoteOp.create
        { id := "e6", title := "Standup", start := 0, endTime := 60, allDay := false,
          resource := { isNote := false, content := "", priority := none,
                        googleEventId := none, syncedToGoogle := false } })
      (by decide)
  · exact notes_never_synced.2.2
      [{ id := "n6", title := "Todo", start := 0, endTime := 0, allDay := true,
         resource := { isNote := true, content := "x", priority := none,
                       googleEventId := none, syncedToGoogle := false } }]
      "n6"
      { authOk := true, createResult := none, updateOk := true, deleteOk := true }

/-- C7: batch reconciliation attempts a create for every unlinked non-Note
local item, and an item whose create fails is still present, unchanged, in
the merged result. -/
theorem syncEvents_keeps_failed_creates (cO : MyEvent → Option String)
    (uO : MyEvent → Bool) (locals gEvents : List MyEvent) (e : MyEvent)
    (hmem : e ∈ locals) (hnote : e.resource.isNote = false)
    (hgid : e.resource.googleEventId = none) :
    RemoteOp.create e ∈ (syncEvents true cO uO locals gEvents).2 ∧
    (cO e = none → e ∈ ((syncEvents true cO uO locals gEvents).1.getD [])) := by
  constructor
  · simpa [syncEvents] using processLocals_create_mem cO uO locals e hmem hnote hgid
  · intro hfail
    have h1 := processLocals_keep_failed cO uO locals e hmem hnote hgid hfail
    have h2 := mergeGoogle_mem_left gEvents _ e h1
    simpa [syncEvents] using h2

/-- Concrete run of C7: the unlinked event's create is attempted and, the
create failing, the event is still in the merged result next to the fetched
remote event. -/
theorem syncEvents_keeps_failed_creates_witness :
    RemoteOp.create
        { id := "e7", title := "Standup", start := 0, endTime := 60, allDay := false,
          resource := { isNote := false, content := "", priority := none,
                        googleEventId := none, syncedToGoogle := false } }
      ∈ (syncEvents true (fun _ => none) (fun _ => false)
          [{ id := "e7", title := "Standup", start := 0, endTime := 60, allDay := false,
             resource := { isNote := false, content := "", priority := none,
                           googleEventId := none, syncedToGoogle := false } }]
          [{ id := "g7", title := "Remote", start := 0, endTime := 60, allDay := false,
             resource := { isNote := false, content := "", priority := none,
                           googleEventId := some "g7", syncedToGoogle := true } }]).2 ∧
    { id := "e7", title := "Standup", start := 0, endTime := 60, allDay := false,
      resource := { isNote := false, content := "", priority := none,
                    googleEventId := none, syncedToGoogle := false } }
      ∈ ((syncEvents true (fun _ => none) (fun _ => false)
          [{ id := "e7", title := "Standup", start := 0, endTime := 60, allDay := false,
             resource := { isNote := false, content := "", priority := none,
                           googleEventId := none, syncedToGoogle := false } }]
          [{ id := "g7", title := "Remote", start := 0, endTime := 60, allDay := false,
             resource := { isNote := false, content := "", priority := none,
                           googleEventId := some "g7", syncedToGoogle := true } }]).1.getD []) := by
  have h := syncEvents_keeps_failed_creates (fun _ => none) (fun _ => false)
    [{ id := "e7", title := "Standup", start := 0, endTime := 60, allDay := false,
       resource := { isNote := false, content := "", priority := none,
                     googleEventId := none, syncedToGoogle := false } }]
    [{ id := "g7", title := "Remote", start := 0, endTime := 60, allDay := false,
       resource := { isNote := false, content := "", priority := none,
                     googleEventId := some "g7", syncedToGoogle := true } }]
    { id := "e7", title := "Standup", start := 0, endTime := 60, allDay := false,
      resource := { isNote := false, content := "", priority := none,
                    googleEventId := none, syncedToGoogle := false } }
    (by decide) rfl rfl
  exact ⟨h.1, h.2 rfl⟩

/-- C5 as universally stated is false: batch reconciliation over a local list
that itself repeats an item (here a Note, passed through untouched twice)
returns a merged list with two entries of the same dedup key. -/
theorem syncEvents_duplicate_counterexample :
    (syncEvents true (fun _ => none) (fun _ => false)
        [{ id := "n5", title := "Todo", start := 0, endTime := 0, allDay := true,
           resource := { isNote := true, content := "x", priority := none,
                         googleEventId := none, syncedToGoogle := false } },
         { id := "n5", title := "Todo", start := 0, endTime := 0, allDay := true,
           resource := { isNote := true, content := "x", priority := none,
                         googleEventId := none, syncedToGoogle := false } }]
        []).1
      = some
        [{ id := "n5", title := "Todo", start := 0, endTime := 0, allDay := true,
           resource := { isNote := true, content := "x", priority := none,
                         googleEventId := none, syncedToGoogle := false } },
         { id := "n5", title := "Todo", start := 0, endTime := 0, allDay := true,
           resource := { isNote := true, content := "x", priority := none,
                         googleEventId := none, syncedToGoogle := false } }] ∧
    ¬ (([{ id := "n5", title := "Todo", start := 0, endTime := 0, allDay := true,
           resource := { isNote := true, content := "x", priority := none,
                         googleEventId := none, syncedToGoogle := false } },
         { id := "n5", title := "Todo", start := 0, endTime := 0, allDay := true,
           resource := { isNote := true, content := "x", priority := none,
                         googleEventId := none, syncedToGoogle := false } }] :
        List MyEvent).map keyOf).Nodup := by
  constructor
  · decide
  · decide

/-- C5 amended: the merge step introduces no duplicates — whenever the
locally processed entries are pairwise distinct on the dedup key (remote
identifier when present, local id otherwise), the full merged result is
pairwise distinct on that key; in particular a fetched remote event whose
identifier already occurs is never appended a second time. -/
theorem syncEvents_nodup_keys (cO : MyEvent → Option String)
    (uO : MyEvent → Bool) (locals gEvents : List MyEvent)
    (h : ((processLocals cO uO locals).1.map keyOf).Nodup) :
    ((((syncEvents true cO uO locals gEvents).1).getD []).map keyOf).Nodup := by
  simpa [syncEvents] using mergeGoogle_nodup_keys gEvents (processLocals cO uO locals).1 h

/-- Concrete run of the amended C5: one linked local event and a fetched
remote copy of it (same identifier) merge into a duplicate-free result. -/
theorem syncEvents_nodup_keys_witness :
    ((processLocals (fun _ => none) (fun _ => true)
        [{ id := "e8", title := "Standup", start := 0, endTime := 60, allDay := false,
           resource := { isNote := false, content := "", priority := none,
                         googleEventId := some "g8", syncedToGoogle := true } }]).1.map
        keyOf).Nodup ∧
    ((((syncEvents true (fun _ => none) (fun _ => true)
        [{ id := "e8", title := "Standup", start := 0, endTime := 60, allDay := false,
           resource := { isNote := false, content := "", priority := none,
                         googleEventId := some "g8", syncedToGoogle := true } }]
        [{ id := "g8", title := "Standup", start := 0, endTime := 60, allDay := false,
           resource := { isNote := false, content := "", priority := none,
                         googleEventId := some "g8", syncedToGoogle := true } }]).1).getD
        []).map keyOf).Nodup := by
  refine ⟨by decide, ?_⟩
  exact syncEvents_nodup_keys (fun _ => none) (fun _ => true)
    [{ id := "e8", title := "Standup", start := 0, endTime := 60, allDay := false,
       resource := { isNote := false, content := "", priority := none,
                     googleEventId := some "g8", syncedToGoogle := true } }]
    [{ id := "g8", title := "Standup", start := 0, endTime := 60, allDay := false,
       resource := { isNote := false, content := "", priority := none,
                     googleEventId := some "g8", syncedToGoogle := true } }]
    (by decide)

/-- C9 as stated is false for all-day items: `validateEventTimes` accepts any
all-day submission outright, so an all-day event ending five days before it
starts is written to the local store (and sent remotely) unrejected. -/
theorem handleSubmit_allDay_counterexample :
    validateEventTimes true 10 0 5 0 = true ∧
    ((handleSubmit
        { title := "Vacation", content := "", isNote := false, allDay := true,
          startDay := 10, startTime := 0, endDay := 5, endTime := 0,
          priority := .medium, existing := none }
        0 0 "d9"
        { authOk := true, createResult := some "g9", updateOk := true,
          deleteOk := true }).any
      (fun a =>
        match a with
        | SubmitAction.addDoc _ d => decide (d.endTime < d.start)
        | _ => false)) = true := by
  constructor
  · decide
  · decide

/-- C9 amended: every timed (non-all-day) Event submission whose end is not
after its start is rejected by validation before any local write or network
call: `handleSubmit` performs no action at all, leaving every state
unchanged. -/
theorem handleSubmit_rejects_invalid_times (form : SubmitForm) (now o : Int)
    (newId : String) (r : Remote)
    (hn : form.isNote = false) (ha : form.allDay = false)
    (hle : form.endDay * 86400 + form.endTime
        ≤ form.startDay * 86400 + form.startTime) :
    handleSubmit form now o newId r = [] := by
  have hv : validateEventTimes form.allDay form.startDay form.startTime
      form.endDay form.endTime = false := by
    simp [validateEventTimes, ha, hle]
  unfold handleSubmit
  simp [hn, hv]

/-- Concrete run of the amended C9: a timed event ending exactly at its start
is rejected with no action taken. -/
theorem handleSubmit_rejects_invalid_times_witness :
    ({ title := "Standup", content := "", isNote := false, allDay := false,
       startDay := 1, startTime := 3600, endDay := 1, endTime := 3600,
       priority := .medium, existing := none } : SubmitForm).isNote = false ∧
    handleSubmit
      { title := "Standup", content := "", isNote := false, allDay := false,
        startDay := 1, startTime := 3600, endDay := 1, endTime := 3600,
        priority := .medium, existing := none }
      0 0 "d10"
      { authOk := true, createResult := some "g10", updateOk := true,
        deleteOk := true } = [] := by
  refine ⟨rfl, ?_⟩
  exact handleSubmit_rejects_invalid_times
    { title := "Standup", content := "", isNote := false, allDay := false,
      startDay := 1, startTime := 3600, endDay := 1, endTime := 3600,
      priority := .medium, existing := none }
    0 0 "d10"
    { authOk := true, createResult := some "g10", updateOk := true,
      deleteOk := true }
    rfl rfl (by norm_num)

/-- C10: a fetched remote event materializes with `allDay` set exactly when
its start has no `dateTime`; a date-only start becomes local wall-clock
`T00:00:00` of that date and a date-only (exclusive) end becomes local
`T23:59:59` of that same exclusive date (not converted back to the inclusive
convention); the item carries `googleEventId = id` with `syncedToGoogle`
set, so `syncEvent` never issues a create for it. -/
theorem convertFromGoogleEvent_linked (o : Int) (g : RemoteGoogleEvent) :
    (convertFromGoogleEvent o g).allDay = g.start.isDateOnly ∧
    (∀ d : Int, g.start = .date d →
      (convertFromGoogleEvent o g).start - 60 * o = d * 86400) ∧
    (∀ d : Int, g.endB = .date d →
      (convertFromGoogleEvent o g).endTime - 60 * o = d * 86400 + 86399) ∧
    (convertFromGoogleEvent o g).resource.googleEventId = some g.id ∧
    (convertFromGoogleEvent o g).resource.syncedToGoogle = true ∧
    (∀ r : Remote, ∀ op ∈ (syncEvent (convertFromGoogleEvent o g) r).2,
      op.isCreate = false) := by
  refine ⟨rfl, ?_, ?_, rfl, rfl, ?_⟩
  · intro d hd
    simp [convertFromGoogleEvent, hd]
  · intro d hd
    simp [convertFromGoogleEvent, hd]
  · intro r
    exact syncEvent_linked_no_create (convertFromGoogleEvent o g) g.id r rfl

/-- Concrete run of C10: a date-only remote event spanning 2024-06-01 to the
exclusive end 2024-06-04 materializes as an all-day linked local item from
local `2024-06-01T00:00:00` to local `2024-06-04T23:59:59`. -/
theorem convertFromGoogleEvent_linked_witness :
    ({ id := "g10", summary := some "Vacation", description := none,
       start := .date 19875, endB := .date 19878 } :
      RemoteGoogleEvent).start = .date 19875 ∧
    (convertFromGoogleEvent 0
        { id := "g10", summary := some "Vacation", description := none,
          start := .date 19875, endB := .date 19878 }).allDay
      = (GBoundary.date 19875).isDateOnly ∧
    (convertFromGoogleEvent 0
        { id := "g10", summary := some "Vacation", description := none,
          start := .date 19875, endB := .date 19878 }).start - 60 * 0
      = 19875 * 86400 ∧
    (convertFromGoogleEvent 0
        { id := "g10", summary := some "Vacation", description := none,
          start := .date 19875, endB := .date 19878 }).endTime - 60 * 0
      = 19878 * 86400 + 86399 ∧
    (convertFromGoogleEvent 0
        { id := "g10", summary := some "Vacation", description := none,
          start := .date 19875, endB := .date 19878 }).resource.googleEventId
      = some "g10" := by
  have h := convertFromGoogleEvent_linked 0
    { id := "g10", summary := some "Vacation", description := none,
      start := .date 19875, endB := .date 19878 }
  exact ⟨rfl, h.1, h.2.1 19875 rfl, h.2.2.1 19878 rfl, h.2.2.2.1⟩
